import Mathlib

/-!
Verification development for the DXF structural parser and geometry builder
of the 3DVIEW repository.

The embedding below is a shallow translation of the TypeScript sources:

* `src/src/utils/dxfParser.ts` — the standalone parser (`parseDXF`): tag
  reading (pass 1 loop head), the section/entity state machine, and the
  geometry builder `createObject` with its render loop.
* the layered viewer variant (the `parseDXF` closure of the
  `MultiDXFViewer` component found in the repository sources): the same
  decoder extended with group-code-8 layer capture, the identical geometry
  builder, and the layer-grouping loop; plus its `loadAllDXFFiles` batch
  loader with the length/binary-marker rejection checks.

Modelling conventions:

* JavaScript numbers are modelled as `JNum := Option ℚ` with `none`
  playing the role of `NaN` (the only non-finite value the parser can
  produce: `parseFloat` on a non-numeric string).  Entity fields are
  `Option JNum`: `none` is the absent (`undefined`) field, `some none` is
  a stored `NaN`.
* `parseInt(s, 10)` / `parseFloat(s)` are modelled by prefix parsers
  `jsParseInt` / `jsParseFloat` over the trimmed string, returning `none`
  for `NaN`.  (`Infinity` literals are not modelled; 2e no claim touches
  them.)
* Geometry is produced into the inductive `Obj`, an abstraction of the
  THREE.js objects the builder creates.  Tessellated circles/arcs are
  recorded by their curve parameters (radius, start/end angle in degrees)
  rather than by 33 sampled points, and rotation angles are recorded in
  degrees (the source stores `deg * Math.PI / 180` on the object), since
  the trigonometric images are not rational.
* The unbounded recursion of `createObject` through INSERT references is
  given an explicit fuel parameter: `createObjectF blocks fuel e` returns
  `none` when the call tree needs depth greater than `fuel` (the real
  code would still be running / overflowing the stack), `some none` when
  the source returns `null`, and `some (some o)` for a built object.
-/

/-- A JavaScript number as the parser can observe it: `none` is `NaN`. -/
abbrev JNum : Type := Option ℚ

/-- Numeric value of a digit character (callers guarantee a digit). -/
def digitVal (c : Char) : ℕ := c.toNat - 48

/-- Value of a digit string read in base 10. -/
def digitsVal (cs : List Char) : ℕ :=
  cs.foldl (fun a c => a * 10 + digitVal c) 0

/-- Split an optional leading sign off a character list, returning the
sign as an integer `1` or `-1` together with the rest. -/
def splitSign : List Char → ℤ × List Char
  | '-' :: r => (-1, r)
  | '+' :: r => (1, r)
  | r => (1, r)

/-- Model of JavaScript `parseInt(s, 10)` on an already-trimmed string:
optional sign, then a maximal run of decimal digits (at least one digit
required, trailing garbage ignored); `none` models the `NaN` result. -/
def jsParseInt (s : String) : Option ℤ :=
  let (sgn, r) := splitSign s.toList
  let ds := r.takeWhile Char.isDigit
  if ds.isEmpty then none
  else some (sgn * Int.ofNat (digitsVal ds))

/-- Model of JavaScript `parseFloat(s)` on an already-trimmed string:
optional sign, integer digits, optional fractional part, optional
exponent part (ignored when its digits are missing, as in JS); `none`
models `NaN` (no leading numeric prefix at all).  The value
`sign · digits(ip ++ fp) · 10 ^ (exponent − |fp|)` is assembled with
`mkRat` over integer arithmetic (so that concrete instances reduce
inside the kernel). -/
def jsParseFloat (s : String) : JNum :=
  let (sgn, r1) := splitSign s.toList
  let ip := r1.takeWhile Char.isDigit
  let r2 := r1.dropWhile Char.isDigit
  let (fp, r3) :=
    match r2 with
    | '.' :: r => (r.takeWhile Char.isDigit, r.dropWhile Char.isDigit)
    | _ => ([], r2)
  if ip.isEmpty ∧ fp.isEmpty then none
  else
    let ex : ℤ :=
      match r3 with
      | 'e' :: r => expVal r
      | 'E' :: r => expVal r
      | _ => 0
    let sh : ℤ := ex - fp.length
    let d : ℤ := sgn * Int.ofNat (digitsVal (ip ++ fp))
    if 0 ≤ sh then some (mkRat (d * (10 : ℤ) ^ sh.toNat) 1)
    else some (mkRat d ((10 : ℕ) ^ (-sh).toNat))
where
  /-- Exponent digits after an `e`/`E`; missing digits mean the exponent
  part is ignored (JS `parseFloat("1e")` is `1`). -/
  expVal (r : List Char) : ℤ :=
    let (esgn, r4) := splitSign r
    let eds := r4.takeWhile Char.isDigit
    if eds.isEmpty then 0
    else esgn * Int.ofNat (digitsVal eds)

/-- Model of JavaScript `String.prototype.trim`: strip whitespace from
both ends.  (Defined over the character list so that concrete instances
reduce inside the kernel.) -/
def jsTrim (s : String) : String :=
  (((s.toList.dropWhile Char.isWhitespace).reverse.dropWhile Char.isWhitespace).reverse).asString

/-- Worker for `splitLines`: accumulate the current line (reversed). -/
def splitLinesAux : List Char → List Char → List String
  | [], acc => [acc.reverse.asString]
  | '\r' :: '\n' :: rest, acc => acc.reverse.asString :: splitLinesAux rest []
  | '\n' :: rest, acc => acc.reverse.asString :: splitLinesAux rest []
  | c :: rest, acc => splitLinesAux rest (c :: acc)

/-- `content.split(/\r?\n/)`: split on newlines, a carriage return
immediately before a newline belongs to the separator. -/
def splitLines (content : String) : List String :=
  splitLinesAux content.toList []

/-- A (group code, value) pair as produced by the pass-1 loop head. -/
abbrev Tag : Type := ℤ × String

/-- The lexical part of the pass-1 loop of `parseDXF`
(`src/src/utils/dxfParser.ts` lines 35–41): lines are consumed strictly
two at a time (`i += 2`); a pair whose trimmed code line is blank or does
not parse as an integer is dropped whole; a trailing odd line is dropped
(`i < lines.length - 1`). -/
def readTags : List String → List Tag
  | c :: v :: rest =>
    let codeStr := jsTrim c
    let value := jsTrim v
    if codeStr = "" then readTags rest
    else
      match jsParseInt codeStr with
      | none => readTags rest
      | some k => (k, value) :: readTags rest
  | _ => []

example : jsParseInt "10" = some 10 := by decide
example : jsParseInt "-3x" = some (-3) := by decide
example : jsParseInt "" = none := by decide
example : jsParseInt "abc" = none := by decide
example : jsParseFloat "2.5" = some (mkRat 5 2) := by decide
example : jsParseFloat "-0.5e1" = some (mkRat (-5) 1) := by decide
example : jsParseFloat "abc" = none := by decide
example : readTags ["0", "LINE", "", "10", "5"] = [(0, "LINE")] := by decide
example : readTags [" 10 ", " 5 "] = [(10, "5")] := by decide

/-- A 3-component point record (`{x, y, z}` object literals in the
source); components are JavaScript numbers. -/
structure Vec3 where
  x : JNum
  y : JNum
  z : JNum
deriving DecidableEq, Repr, Inhabited

/-- The loosely-typed entity record of the source (`DXFEntity` in
`src/src/types.ts` as the parser uses it): every field other than `type`
is optional.  `Option JNum` distinguishes the absent field (`none`) from
a stored `NaN` (`some none`). -/
structure DXFEntity where
  type : String
  blockName : Option String := none
  layer : Option String := none
  x : Option JNum := none
  y : Option JNum := none
  z : Option JNum := none
  x1 : Option JNum := none
  y1 : Option JNum := none
  z1 : Option JNum := none
  x2 : Option JNum := none
  y2 : Option JNum := none
  z2 : Option JNum := none
  x3 : Option JNum := none
  y3 : Option JNum := none
  z3 : Option JNum := none
  radius : Option JNum := none
  startAngle : Option JNum := none
  endAngle : Option JNum := none
  rotation : Option JNum := none
  scale : Option Vec3 := none
  vertices : Option (List Vec3) := none
  controlPoints : Option (List Vec3) := none
  knots : Option (List JNum) := none
  closed : Option Bool := none
deriving DecidableEq, Repr, Inhabited

/-- JavaScript truthiness of a nullable string: non-null and non-empty
(`if (currentBlockName)` / `e.blockName &&`). -/
def strTruthy : Option String → Bool
  | some s => s ≠ ""
  | none => false

/-- JavaScript truthiness of an optional number field: `undefined`, `NaN`
and `0` are falsy (`if (e.rotation)`). -/
def numTruthy : Option JNum → Bool
  | some (some q) => q ≠ 0
  | _ => false

/-- `field || d` on an optional numeric field: `undefined`, `NaN` and `0`
all fall back to the default (`e.x || 0`, `e.radius || 1`). -/
def jsOr (v : Option JNum) (d : ℚ) : ℚ :=
  match v with
  | some (some q) => if q = 0 then d else q
  | _ => d

/-- `field ?? d` on a component of a scale record: only `undefined`
falls back; a stored `NaN` is kept (`e.scale?.x ?? 1`). -/
def jsCoalesce (v : Option JNum) (d : ℚ) : JNum :=
  match v with
  | some j => j
  | none => some d

/-- Truncation toward zero of a rational, as JS `ToInt32` starts from. -/
def jsTrunc (q : ℚ) : ℤ :=
  if 0 ≤ q then ⌊q⌋ else -⌊-q⌋

/-- JS `ToInt32` of a number (`NaN` maps to `0`): truncate, wrap modulo
`2^32` into the signed range. -/
def jsToInt32 (v : JNum) : ℤ :=
  match v with
  | none => 0
  | some q =>
    let m := jsTrunc q % 4294967296
    if m < 2147483648 then m else m - 4294967296

/-- `(valNum & 1) === 1`: the closed-flag bit test on group code 70. -/
def jsBit0 (v : JNum) : Bool :=
  jsToInt32 v % 2 = 1 ∨ jsToInt32 v % 2 = -1

/-- Lookup in a `Record<string, T>` modelled as an insertion-ordered
association list. -/
def assocGet {α : Type} : List (String × α) → String → Option α
  | [], _ => none
  | (k', v) :: rest, k => if k' = k then some v else assocGet rest k

/-- Assignment `m[k] = v` on a `Record<string, T>`: overwrite the first
binding of an existing key, else append. -/
def assocSet {α : Type} (m : List (String × α)) (k : String) (v : α) : List (String × α) :=
  match m with
  | [] => [(k, v)]
  | (k', v') :: rest => if k' = k then (k, v) :: rest else (k', v') :: assocSet rest k v

/-- Replace the last element of a list (`vertices[vertices.length - 1]`
mutation guarded by `if (v)`): no-op on the empty list. -/
def updateLast {α : Type} (f : α → α) : List α → List α
  | [] => []
  | [a] => [f a]
  | a :: rest => a :: updateLast f rest

/-- Decoder state of pass 1 of `parseDXF` (`src/src/utils/dxfParser.ts`
lines 15–21): the mutable outer-scope variables of the loop. -/
structure PState where
  «section» : Option String := none
  currentBlockName : Option String := none
  currentBlockEntities : List DXFEntity := []
  currentEntity : Option DXFEntity := none
  blocks : List (String × List DXFEntity) := []
  entities : List DXFEntity := []
deriving DecidableEq, Repr, Inhabited

/-- `commitEntity` (`dxfParser.ts` lines 23–32): flush the in-progress
entity into the open block's buffer (inside `BLOCKS` with a non-empty
captured name), into model space (inside `ENTITIES`), or drop it. -/
def commitEntity (s : PState) : PState :=
  match s.currentEntity with
  | none => s
  | some e =>
    if s.«section» = some "BLOCKS" ∧ strTruthy s.currentBlockName then
      { s with currentBlockEntities := s.currentBlockEntities ++ [e], currentEntity := none }
    else if s.«section» = some "ENTITIES" then
      { s with entities := s.entities ++ [e], currentEntity := none }
    else
      { s with currentEntity := none }

/-- The `switch (code)` of the numeric-property branch (`dxfParser.ts`
lines 79–101): route the parsed value into the typed field. -/
def applySwitch (e : DXFEntity) (code : ℤ) (v : JNum) : DXFEntity :=
  if code = 10 then { e with x := some v }
  else if code = 20 then { e with y := some v }
  else if code = 30 then { e with z := some v }
  else if code = 11 then { e with x1 := some v }
  else if code = 21 then { e with y1 := some v }
  else if code = 31 then { e with z1 := some v }
  else if code = 12 then { e with x2 := some v }
  else if code = 22 then { e with y2 := some v }
  else if code = 32 then { e with z2 := some v }
  else if code = 13 then { e with x3 := some v }
  else if code = 23 then { e with y3 := some v }
  else if code = 33 then { e with z3 := some v }
  else if code = 40 then
    match e.knots with
    | some ks => { e with knots := some (ks ++ [v]) }
    | none => { e with radius := some v }
  else if code = 50 then { e with startAngle := some v }
  else if code = 51 then { e with endAngle := some v }
  else if code = 41 then
    { e with scale := some { (e.scale.getD ⟨some 1, some 1, some 1⟩) with x := v } }
  else if code = 42 then
    { e with scale := some { (e.scale.getD ⟨some 1, some 1, some 1⟩) with y := v } }
  else if code = 43 then
    { e with scale := some { (e.scale.getD ⟨some 1, some 1, some 1⟩) with z := v } }
  else e

/-- The LWPOLYLINE vertex-accumulation block (`dxfParser.ts` lines
104–114): code 10 appends a fresh vertex, code 20 patches the last
vertex's `y`, code 70 sets the closed flag from bit 0. -/
def applyLWPolyline (e : DXFEntity) (code : ℤ) (v : JNum) : DXFEntity :=
  if e.type = "LWPOLYLINE" then
    let e1 :=
      if code = 10 then
        { e with vertices := some ((e.vertices.getD []) ++ [⟨v, some 0, some 0⟩]) }
      else e
    let e2 :=
      if code = 20 then
        { e1 with vertices := e1.vertices.map (updateLast (fun p => { p with y := v })) }
      else e1
    if code = 70 then { e2 with closed := some (jsBit0 v) } else e2
  else e

/-- The SPLINE control-point block (`dxfParser.ts` lines 117–130). -/
def applySpline (e : DXFEntity) (code : ℤ) (v : JNum) : DXFEntity :=
  if e.type = "SPLINE" then
    let e1 :=
      if code = 10 then
        { e with controlPoints := some ((e.controlPoints.getD []) ++ [⟨v, some 0, some 0⟩]) }
      else e
    let e2 :=
      if code = 20 then
        { e1 with controlPoints := e1.controlPoints.map (updateLast (fun p => { p with y := v })) }
      else e1
    if code = 30 then
      { e2 with controlPoints := e2.controlPoints.map (updateLast (fun p => { p with z := v })) }
    else e2
  else e

/-- One iteration body of the pass-1 loop of `parseDXF`
(`dxfParser.ts` lines 43–131), acting on one (code, value) pair. -/
def processTag (s : PState) (t : Tag) : PState :=
  let code := t.1
  let value := t.2
  if code = 0 then
    let s1 := commitEntity s
    if value = "SECTION" then { s1 with «section» := none }
    else if value = "ENDSEC" then { s1 with «section» := none }
    else if value = "BLOCK" then
      { s1 with currentBlockName := some "", currentBlockEntities := [] }
    else if value = "ENDBLK" then
      let s2 :=
        if strTruthy s1.currentBlockName then
          { s1 with blocks := assocSet s1.blocks (s1.currentBlockName.getD "") s1.currentBlockEntities }
        else s1
      { s2 with currentBlockName := none, currentBlockEntities := [] }
    else
      if s1.«section» = some "ENTITIES" ∨ (s1.«section» = some "BLOCKS" ∧ s1.currentBlockName ≠ none) then
        { s1 with currentEntity := some { type := value } }
      else s1
  else if code = 2 then
    if s.«section» = none ∧ (value = "ENTITIES" ∨ value = "BLOCKS") then
      { s with «section» := some value }
    else if s.«section» = some "BLOCKS" ∧ s.currentBlockName = some "" then
      { s with currentBlockName := some value }
    else
      match s.currentEntity with
      | some e =>
        if e.type = "INSERT" then { s with currentEntity := some { e with blockName := some value } }
        else s
      | none => s
  else
    match s.currentEntity with
    | none => s
    | some e =>
      let valNum := jsParseFloat value
      let e1 := applySwitch e code valNum
      let e2 := applyLWPolyline e1 code valNum
      let e3 := applySpline e2 code valNum
      { s with currentEntity := some e3 }

/-- Pass 1 of `parseDXF` over a tag stream, final flush included
(`dxfParser.ts` lines 35–133). -/
def parseTags (ts : List Tag) : PState :=
  commitEntity (ts.foldl processTag {})

/-- Pass 1 of `parseDXF` applied to raw file content (split, pair, trim,
decode). -/
def parseText (content : String) : PState :=
  parseTags (readTags (splitLines content))

example :
    (parseText "0\nSECTION\n2\nENTITIES\n0\nLINE\n10\n1.5\n0\nENDSEC").entities
      = [{ type := "LINE", x := some (some (mkRat 3 2)) }] := by
  decide

/-- Renderable output of the geometry builder, abstracting the THREE.js
objects `createObject` constructs.  `curveLine` records the parameters of
the tessellated `EllipseCurve` (radius and sweep in degrees; the source
samples 33 points of the curve swept over the radian images of these
angles).  `group` records the nested INSERT instance: children, position,
per-axis scale, and the rotation angle in degrees (the source stores
`deg * Math.PI / 180` in `rotation.z`). -/
inductive Obj where
  | line (pts : List Vec3) (pos : Vec3)
  | curveLine (radius startDeg endDeg : ℚ) (pos : Vec3)
  | splineLine (ctrl : List Vec3)
  | mesh (pts : List Vec3)
  | group (children : List Obj) (pos : Vec3) (scl : Vec3) (rotDeg : ℚ)

/-- Pack three rationals as a point record. -/
def mkVecQ (a b c : ℚ) : Vec3 := ⟨some a, some b, some c⟩

/-- `v || 0` on a JavaScript number (not an optional field): `NaN` and
`0` fall back to the default. -/
def jsOrJ (v : JNum) (d : ℚ) : ℚ :=
  match v with
  | some q => if q = 0 then d else q
  | none => d

/-- JS `===` on numbers (`THREE.Vector3.equals` componentwise): `NaN`
compares unequal to everything, itself included. -/
def jsEqNum (a b : JNum) : Bool :=
  match a, b with
  | some p, some q => p = q
  | _, _ => false

/-- `THREE.Vector3.equals`: componentwise `===`. -/
def vecEqJS (p q : Vec3) : Bool :=
  jsEqNum p.x q.x ∧ jsEqNum p.y q.y ∧ jsEqNum p.z q.z

/-- Array-presence-and-length guard `e.vertices && e.vertices.length > 1`. -/
def lenGt1 (o : Option (List Vec3)) : Bool :=
  match o with
  | some vs => vs.length > 1
  | none => false

/-- Numeric payload of an optional field (`0` for absent/`NaN`; only used
under a `numTruthy` guard). -/
def numVal (v : Option JNum) : ℚ :=
  match v with
  | some (some q) => q
  | _ => 0

/-- The four corner points of a 3DFACE (`dxfParser.ts` lines 196–201),
each coordinate defaulted with `|| 0`. -/
def faceCorners (e : DXFEntity) : List Vec3 :=
  [mkVecQ (jsOr e.x 0) (jsOr e.y 0) (jsOr e.z 0),
   mkVecQ (jsOr e.x1 0) (jsOr e.y1 0) (jsOr e.z1 0),
   mkVecQ (jsOr e.x2 0) (jsOr e.y2 0) (jsOr e.z2 0),
   mkVecQ (jsOr e.x3 0) (jsOr e.y3 0) (jsOr e.z3 0)]

/-- The vertex buffer of a 3DFACE (`dxfParser.ts` lines 202–204): when
the 4th corner differs from the 3rd, the first and third corners are
appended after the quad, giving the two-triangle fan; otherwise the four
corner points are left as they are. -/
def facePtsFinal (e : DXFEntity) : List Vec3 :=
  let c := faceCorners e
  let p0 := c.getD 0 default
  let p2 := c.getD 2 default
  let p3 := c.getD 3 default
  if vecEqJS p3 p2 then c else c ++ [p0, p2]

/-- The child-building loop of the INSERT branch (`dxfParser.ts` lines
215–218) and, with the same shape, the top-level render loop (lines
241–247): build each entity, skip `null` results, and propagate fuel
exhaustion of the recursive builder. -/
def buildChildrenWith (recur : DXFEntity → Option (Option Obj)) : List DXFEntity → Option (List Obj)
  | [] => some []
  | c :: cs =>
    match recur c with
    | none => none
    | some none => buildChildrenWith recur cs
    | some (some o) =>
      match buildChildrenWith recur cs with
      | none => none
      | some os => some (o :: os)

/-- One unfolding of `createObject` (`dxfParser.ts` lines 145–237, and
identically the layered viewer's `createObject`): the per-type if-chain,
with recursive calls on block children delegated to `recur`. -/
def createObjStep (recur : DXFEntity → Option (Option Obj))
    (blocks : List (String × List DXFEntity)) (e : DXFEntity) : Option (Option Obj) :=
  if e.type = "LINE" then
    some (some (Obj.line
      [mkVecQ (jsOr e.x 0) (jsOr e.y 0) (jsOr e.z 0),
       mkVecQ (jsOr e.x1 0) (jsOr e.y1 0) (jsOr e.z1 0)]
      (mkVecQ 0 0 0)))
  else if e.type = "LWPOLYLINE" ∧ lenGt1 e.vertices then
    let vs := e.vertices.getD []
    let pts := vs.map (fun v => Vec3.mk v.x v.y (some (jsOr e.z 0)))
    let pts2 := if e.closed = some true then pts ++ [pts.getD 0 default] else pts
    some (some (Obj.line pts2 (mkVecQ 0 0 0)))
  else if e.type = "CIRCLE" then
    some (some (Obj.curveLine (jsOr e.radius 1) 0 360
      (mkVecQ (jsOr e.x 0) (jsOr e.y 0) (jsOr e.z 0))))
  else if e.type = "ARC" then
    some (some (Obj.curveLine (jsOr e.radius 1) (jsOr e.startAngle 0) (jsOr e.endAngle 0)
      (mkVecQ (jsOr e.x 0) (jsOr e.y 0) (jsOr e.z 0))))
  else if e.type = "SPLINE" ∧ lenGt1 e.controlPoints then
    let cps := e.controlPoints.getD []
    some (some (Obj.splineLine (cps.map (fun p => Vec3.mk p.x p.y (some (jsOrJ p.z 0))))))
  else if e.type = "3DFACE" then
    some (some (Obj.mesh (facePtsFinal e)))
  else if e.type = "INSERT" ∧ strTruthy e.blockName then
    match assocGet blocks (e.blockName.getD "") with
    | none => some none
    | some defs =>
      match buildChildrenWith recur defs with
      | none => none
      | some os =>
        some (some (Obj.group os
          (mkVecQ (jsOr e.x 0) (jsOr e.y 0) (jsOr e.z 0))
          ⟨jsCoalesce (e.scale.map Vec3.x) 1,
           jsCoalesce (e.scale.map Vec3.y) 1,
           jsCoalesce (e.scale.map Vec3.z) 1⟩
          (if numTruthy e.rotation then numVal e.rotation else 0)))
  else
    some none

/-- `createObject` with explicit call-depth fuel: `none` means the call
tree needs depth greater than `fuel` (the source recursion has no depth
bound of its own), `some none` is the source's `null`, `some (some o)` a
built object. -/
def createObjectF (blocks : List (String × List DXFEntity)) : ℕ → DXFEntity → Option (Option Obj)
  | 0, _ => none
  | fuel + 1, e => createObjStep (createObjectF blocks fuel) blocks e

/-- The render-all loop of `parseDXF` (`dxfParser.ts` lines 239–247):
objects for all model-space entities, `null` results skipped. -/
def renderEntities (blocks : List (String × List DXFEntity)) (fuel : ℕ)
    (es : List DXFEntity) : Option (List Obj) :=
  buildChildrenWith (createObjectF blocks fuel) es

/-- The whole of `parseDXF` (`dxfParser.ts`): decode, then build all
model-space entities against the decoded block definitions. -/
def parseDXF (content : String) (fuel : ℕ) : Option (List Obj) :=
  let s := parseText content
  renderEntities s.blocks fuel s.entities

/-- One iteration body of the pass-1 loop of the layered viewer's
`parseDXF` (the `MultiDXFViewer` component variant): identical to
`processTag` except that group code 8, while an entity is in progress,
records the entity's layer name before the numeric branch is reached
(`else if (code === 8 && currentEntity) currentEntity.layer = value`). -/
def processTagMV (s : PState) (t : Tag) : PState :=
  let code := t.1
  let value := t.2
  if code = 0 then
    let s1 := commitEntity s
    if value = "SECTION" then { s1 with «section» := none }
    else if value = "ENDSEC" then { s1 with «section» := none }
    else if value = "BLOCK" then
      { s1 with currentBlockName := some "", currentBlockEntities := [] }
    else if value = "ENDBLK" then
      let s2 :=
        if strTruthy s1.currentBlockName then
          { s1 with blocks := assocSet s1.blocks (s1.currentBlockName.getD "") s1.currentBlockEntities }
        else s1
      { s2 with currentBlockName := none, currentBlockEntities := [] }
    else
      if s1.«section» = some "ENTITIES" ∨ (s1.«section» = some "BLOCKS" ∧ s1.currentBlockName ≠ none) then
        { s1 with currentEntity := some { type := value } }
      else s1
  else if code = 2 then
    if s.«section» = none ∧ (value = "ENTITIES" ∨ value = "BLOCKS") then
      { s with «section» := some value }
    else if s.«section» = some "BLOCKS" ∧ s.currentBlockName = some "" then
      { s with currentBlockName := some value }
    else
      match s.currentEntity with
      | some e =>
        if e.type = "INSERT" then { s with currentEntity := some { e with blockName := some value } }
        else s
      | none => s
  else
    match s.currentEntity with
    | none => s
    | some e =>
      if code = 8 then { s with currentEntity := some { e with layer := some value } }
      else
        let valNum := jsParseFloat value
        let e1 := applySwitch e code valNum
        let e2 := applyLWPolyline e1 code valNum
        let e3 := applySpline e2 code valNum
        { s with currentEntity := some e3 }

/-- Pass 1 of the layered viewer's `parseDXF`, final flush included. -/
def parseTagsMV (ts : List Tag) : PState :=
  commitEntity (ts.foldl processTagMV {})

/-- Pass 1 of the layered viewer's `parseDXF` on raw file content. -/
def parseTextMV (content : String) : PState :=
  parseTagsMV (readTags (splitLines content))

/-- `e.layer || '0'`: the key an entity is grouped under in the layered
viewer (absent layer or empty-string layer both fall back to `"0"`). -/
def layerKey (e : DXFEntity) : String :=
  match e.layer with
  | some s => if s = "" then "0" else s
  | none => "0"

/-- `if (!layerGroups[layerName]) layerGroups[layerName] = new Group()`:
create the layer group on first sight of the key, preserving insertion
order. -/
def ensureLayer (gs : List (String × List Obj)) (k : String) : List (String × List Obj) :=
  match assocGet gs k with
  | some _ => gs
  | none => gs ++ [(k, [])]

/-- `layerGroups[layerName].add(obj)`: append an object to the (present)
layer group of the given key. -/
def layerAdd : List (String × List Obj) → String → Obj → List (String × List Obj)
  | [], _, _ => []
  | (k', l) :: rest, k, o =>
    if k' = k then (k', l ++ [o]) :: rest else (k', l) :: layerAdd rest k o

/-- The layer-grouping loop of the layered viewer's `parseDXF`
(`entities.forEach` over `layerGroups`): ensure the group for
`e.layer || '0'` exists, build the entity, add the object when non-null;
fuel exhaustion of the builder propagates. -/
def buildLayersGo (blocks : List (String × List DXFEntity)) (fuel : ℕ)
    (gs : List (String × List Obj)) : List DXFEntity → Option (List (String × List Obj))
  | [] => some gs
  | e :: es =>
    match createObjectF blocks fuel e with
    | none => none
    | some none => buildLayersGo blocks fuel (ensureLayer gs (layerKey e)) es
    | some (some o) =>
      buildLayersGo blocks fuel (layerAdd (ensureLayer gs (layerKey e)) (layerKey e) o) es

/-- The layered viewer's `parseDXF` from decoded state to its layer
groups (file-node and color bookkeeping omitted: they carry no geometry). -/
def buildLayers (s : PState) (fuel : ℕ) : Option (List (String × List Obj)) :=
  buildLayersGo s.blocks fuel [] s.entities

/-- The rejection test of `loadAllDXFFiles` (layered viewer variants):
`!content || content.length < 10` then
`content.startsWith('AutoCAD Binary DXF')`. -/
def fileRejected (content : String) : Bool :=
  content = "" ∨ content.length < 10
    ∨ List.isPrefixOf ("AutoCAD Binary DXF").toList content.toList

/-- The batch loader `loadAllDXFFiles` of the layered viewer over
(name, content) pairs: files failing `fileRejected` are skipped with
`continue` before any tag parsing; the others are parsed (the decoded
pass-1 state stands in for the built group, whose geometry is irrelevant
to the load logic); the batch error message is set only when no file at
all was loaded. -/
def loadAllDXFFiles (files : List (String × String)) :
    List (String × PState) × Option String :=
  let loaded := (files.filter (fun f => ¬ fileRejected f.2)).map (fun f => (f.1, parseTextMV f.2))
  (loaded, if loaded.length > 0 then none else some "No viewable objects found in DXF files.")

/-! ### Tag-reader lemmas -/

theorem jsParseInt_empty : jsParseInt "" = none := rfl

/-- A pair whose trimmed code line parses as an integer yields its tag,
whatever the value line holds. -/
theorem readTags_cons_ok (c v : String) (rest : List String) (k : ℤ)
    (h : jsParseInt (jsTrim c) = some k) :
    readTags (c :: v :: rest) = (k, jsTrim v) :: readTags rest := by
  have hne : jsTrim c ≠ "" := by
    intro hz
    rw [hz, jsParseInt_empty] at h
    cases h
  simp [readTags, hne, h]

/-- A pair whose trimmed code line does not parse as an integer (the
blank code line included) is dropped whole. -/
theorem readTags_cons_skip (c v : String) (rest : List String)
    (h : jsParseInt (jsTrim c) = none) :
    readTags (c :: v :: rest) = readTags rest := by
  by_cases hz : jsTrim c = "" <;> simp [readTags, hz, h]

/-- Two consecutive blank lines land on the pair grid and are skipped
without touching what follows. -/
theorem readTags_doubleBlank (xs : List String) : readTags ("" :: "" :: xs) = readTags xs :=
  readTags_cons_skip "" "" xs rfl

/-- An even run of blank lines on the pair grid is transparent. -/
theorem readTags_blankPairs (b : ℕ) (rest : List String) :
    readTags (List.replicate (2 * b) "" ++ rest) = readTags rest := by
  induction b with
  | zero => simp
  | succ n ih =>
    have h2 : 2 * (n + 1) = 2 * n + 1 + 1 := by omega
    rw [h2, List.replicate_succ, List.replicate_succ, List.cons_append, List.cons_append,
      readTags_doubleBlank]
    exact ih

/-- Any number of trailing blank lines after the last pair is harmless. -/
theorem readTags_allBlank (t : ℕ) : readTags (List.replicate t "") = [] := by
  rcases Nat.even_or_odd t with ⟨b, hb⟩ | ⟨b, hb⟩
  · have : t = 2 * b := by omega
    subst this
    simpa using readTags_blankPairs b []
  · subst hb
    rw [show 2 * b + 1 = 2 * b + 1 from rfl, List.replicate_add]
    simpa using readTags_blankPairs b [""]

/-- Input shape of the amended round-trip property: each (code, value)
pair preceded by an even run of blank lines, with arbitrary trailing
blanks. -/
def pairsToLines (ps : List (ℕ × ℤ × String × String)) (t : ℕ) : List String :=
  (ps.map (fun q => List.replicate (2 * q.1) "" ++ [q.2.2.1, q.2.2.2])).flatten
    ++ List.replicate t ""

/-- C3 (amended).  The reader consumes lines strictly two at a time, so a
lone blank line is dropped together with the line after it and shifts all
later pairing.  What holds is: for input made of N well-formed
(code, value) pairs where every blank run sitting between pairs has even
length (trailing blanks unrestricted), the reader yields exactly the N
tags in original order. -/
theorem C3_reader_pairing_amended (ps : List (ℕ × ℤ × String × String)) (t : ℕ)
    (h : ∀ q ∈ ps, jsParseInt (jsTrim q.2.2.1) = some q.2.1) :
    readTags (pairsToLines ps t) = ps.map (fun q => (q.2.1, jsTrim q.2.2.2)) := by
  induction ps with
  | nil => simpa [pairsToLines] using readTags_allBlank t
  | cons q qs ih =>
    have hq := h q (List.mem_cons_self q qs)
    have hqs : ∀ r ∈ qs, jsParseInt (jsTrim r.2.2.1) = some r.2.1 :=
      fun r hr => h r (List.mem_cons_of_mem q hr)
    calc readTags (pairsToLines (q :: qs) t)
        = readTags (List.replicate (2 * q.1) ""
            ++ (q.2.2.1 :: q.2.2.2 :: pairsToLines qs t)) := by
          simp [pairsToLines]
      _ = readTags (q.2.2.1 :: q.2.2.2 :: pairsToLines qs t) := readTags_blankPairs _ _
      _ = (q.2.1, jsTrim q.2.2.2) :: readTags (pairsToLines qs t) :=
          readTags_cons_ok _ _ _ _ hq
      _ = (q :: qs).map (fun r => (r.2.1, jsTrim r.2.2.2)) := by
          rw [ih hqs]
          simp

/-- C3 (counterexample).  One single blank line before a well-formed
(code, value) pair: the claim says the reader still yields that one tag,
but the stride-2 loop skips the blank line together with the code line
after it, and the value line is dropped by the `i < lines.length - 1`
bound, yielding no tag at all. -/
theorem C3_reader_pairing_counterexample :
    ¬ (readTags ["", "10", "5"] = [((10 : ℤ), "5")]) := by decide

/-- C3 (witness). -/
theorem C3_reader_pairing_witness :
    readTags (pairsToLines [(1, 0, "0", "LINE"), (0, 10, " 10 ", "5")] 3)
      = [((0 : ℤ), "LINE"), ((10 : ℤ), "5")] :=
  (C3_reader_pairing_amended [(1, 0, "0", "LINE"), (0, 10, " 10 ", "5")] 3
    (by decide)).trans (by decide)

/-! ### Structural-decoder claims -/

/-- C6.  A BLOCK inside the BLOCKS section whose name is captured (any
non-empty name) and that contains exactly one entity (any non-structural
type token), closed by ENDBLK, produces exactly the one-entity block
definition under that name; the same BLOCK left unterminated at end of
input contributes nothing to the block definitions. -/
theorem C6_block_closure (name etype : String) (hn : name ≠ "")
    (h1 : etype ≠ "SECTION") (h2 : etype ≠ "ENDSEC")
    (h3 : etype ≠ "BLOCK") (h4 : etype ≠ "ENDBLK") :
    (parseTags [(0, "SECTION"), (2, "BLOCKS"), (0, "BLOCK"), (2, name), (0, etype),
        (0, "ENDBLK")]).blocks = [(name, [{ type := etype }])]
    ∧ (parseTags [(0, "SECTION"), (2, "BLOCKS"), (0, "BLOCK"), (2, name),
        (0, etype)]).blocks = [] := by
  constructor <;>
    simp [parseTags, processTag, commitEntity, strTruthy, assocSet, h1, h2, h3, h4, hn]

/-- C6 (witness): the spec's own instance, a block DOOR holding one LINE. -/
theorem C6_block_closure_witness :
    (parseTags [(0, "SECTION"), (2, "BLOCKS"), (0, "BLOCK"), (2, "DOOR"), (0, "LINE"),
        (0, "ENDBLK")]).blocks = [("DOOR", [{ type := "LINE" }])]
    ∧ (parseTags [(0, "SECTION"), (2, "BLOCKS"), (0, "BLOCK"), (2, "DOOR"),
        (0, "LINE")]).blocks = [] :=
  C6_block_closure "DOOR" "LINE" (by decide) (by decide) (by decide) (by decide) (by decide)

/-! ### Geometry-builder claims -/

/-- An entity whose build result is `null` contributes nothing to the
object list and leaves every other entity's output untouched. -/
theorem buildChildren_skip (recur : DXFEntity → Option (Option Obj)) (e : DXFEntity)
    (he : recur e = some none) (es1 es2 : List DXFEntity) :
    buildChildrenWith recur (es1 ++ e :: es2) = buildChildrenWith recur (es1 ++ es2) := by
  induction es1 with
  | nil => simp [buildChildrenWith, he]
  | cons a as ih =>
    simp only [List.cons_append, buildChildrenWith, List.append_eq, ih]

/-- C8.  An INSERT whose block-name field was never set (or is empty) or
whose referenced name has no entry in the block definitions builds to
`null` — no primitive, no exception (the builder is a total function) —
and the render loop still builds every other entity around it. -/
theorem C8_insert_missing_block (blocks : List (String × List DXFEntity)) (fuel : ℕ)
    (e : DXFEntity) (he : e.type = "INSERT")
    (hb : strTruthy e.blockName = false ∨ assocGet blocks (e.blockName.getD "") = none) :
    createObjectF blocks (fuel + 1) e = some none
    ∧ ∀ es1 es2, renderEntities blocks (fuel + 1) (es1 ++ e :: es2)
        = renderEntities blocks (fuel + 1) (es1 ++ es2) := by
  have h1 : createObjectF blocks (fuel + 1) e = some none := by
    rcases hb with hb | hb
    · simp [createObjectF, createObjStep, he, hb]
    · by_cases hs : strTruthy e.blockName = true
      · simp [createObjectF, createObjStep, he, hs, hb]
      · simp [createObjectF, createObjStep, he, Bool.not_eq_true _ ▸ hs]
  exact ⟨h1, fun es1 es2 => buildChildren_skip _ e h1 es1 es2⟩

/-- C8 (witness): an INSERT naming a missing block, between two LINEs. -/
theorem C8_insert_missing_block_witness :
    createObjectF [("B", [{ type := "LINE" }])] 1 { type := "INSERT", blockName := some "MISSING" }
        = some none
    ∧ renderEntities [("B", [{ type := "LINE" }])] 1
        [{ type := "LINE" }, { type := "INSERT", blockName := some "MISSING" }, { type := "CIRCLE" }]
      = renderEntities [("B", [{ type := "LINE" }])] 1 [{ type := "LINE" }, { type := "CIRCLE" }] := by
  have h := C8_insert_missing_block [("B", [{ type := "LINE" }])] 0
    { type := "INSERT", blockName := some "MISSING" } rfl (Or.inr (by decide))
  exact ⟨h.1, by simpa using h.2 [{ type := "LINE" }] [{ type := "CIRCLE" }]⟩

/-- C4 (amended).  A 3DFACE always builds a mesh over `facePtsFinal`:
6 vertices (two triangles) when the 4th corner differs from the 3rd, but
4 vertices when the 4th corner equals the 3rd — the quad's corner list is
left as is, so the buffer keeps a trailing vertex beyond the single
triangle the renderer assembles, rather than the claimed 3 vertices. -/
theorem C4_face_triangulation_amended (blocks : List (String × List DXFEntity)) (fuel : ℕ)
    (e : DXFEntity) (he : e.type = "3DFACE") :
    createObjectF blocks (fuel + 1) e = some (some (Obj.mesh (facePtsFinal e)))
    ∧ (vecEqJS ((faceCorners e).getD 3 default) ((faceCorners e).getD 2 default) = true →
        (facePtsFinal e).length = 4)
    ∧ (vecEqJS ((faceCorners e).getD 3 default) ((faceCorners e).getD 2 default) = false →
        (facePtsFinal e).length = 6) := by
  refine ⟨by simp [createObjectF, createObjStep, he], fun h => ?_, fun h => ?_⟩
  · have h' : vecEqJS (mkVecQ (jsOr e.x3 0) (jsOr e.y3 0) (jsOr e.z3 0))
        (mkVecQ (jsOr e.x2 0) (jsOr e.y2 0) (jsOr e.z2 0)) = true := by
      simpa [faceCorners] using h
    simp [facePtsFinal, faceCorners, h']
  · have h' : vecEqJS (mkVecQ (jsOr e.x3 0) (jsOr e.y3 0) (jsOr e.z3 0))
        (mkVecQ (jsOr e.x2 0) (jsOr e.y2 0) (jsOr e.z2 0)) = false := by
      simpa [faceCorners] using h
    simp [facePtsFinal, faceCorners, h']

/-- A degenerate 3DFACE: corners (0,0,0), (1,0,0), (1,1,0), (1,1,0),
the 4th equal to the 3rd. -/
def faceDegen : DXFEntity :=
  { type := "3DFACE",
    x := some (some 0), y := some (some 0), z := some (some 0),
    x1 := some (some 1), y1 := some (some 0), z1 := some (some 0),
    x2 := some (some 1), y2 := some (some 1), z2 := some (some 0),
    x3 := some (some 1), y3 := some (some 1), z3 := some (some 0) }

/-- Vertex count of a built mesh result (0 for anything else). -/
def builtMeshLen (r : Option (Option Obj)) : ℕ :=
  match r with
  | some (some (Obj.mesh pts)) => pts.length
  | _ => 0

/-- C4 (counterexample).  The mesh vertex count of a degenerate 3DFACE
(4th corner equal to the 3rd): the claim says 3 vertices, the builder
leaves 4. -/
theorem C4_face_triangulation_counterexample :
    builtMeshLen (createObjectF [] 1 faceDegen) ≠ 3 := by
  decide

/-- C4 (witness): a degenerate and a non-degenerate face. -/
theorem C4_face_triangulation_witness :
    createObjectF [] 1 { type := "3DFACE" } = some (some (Obj.mesh (facePtsFinal { type := "3DFACE" })))
    ∧ (facePtsFinal { type := "3DFACE" }).length = 4
    ∧ (facePtsFinal { type := "3DFACE", x3 := some (some 7) }).length = 6 := by
  have h1 := C4_face_triangulation_amended [] 0 { type := "3DFACE" } rfl
  have h2 := C4_face_triangulation_amended [] 0 { type := "3DFACE", x3 := some (some 7) } rfl
  exact ⟨h1.1, h1.2.1 (by decide), h2.2.2 (by decide)⟩

/-- The self-referential document of the cyclic-guard property: a block
A whose body is an INSERT of A itself. -/
def insertSelf : DXFEntity := { type := "INSERT", blockName := some "A" }

/-- Block definitions holding the self-referential block A. -/
def selfBlocks : List (String × List DXFEntity) := [("A", [insertSelf])]

/-- C2.  No depth bound exists in `createObject`
(`src/src/utils/dxfParser.ts` lines 145–237): on a block that contains an
INSERT referencing itself, the builder re-enters the INSERT branch at
every level, so no finite call depth completes the construction — the
fueled embedding exhausts any amount of fuel instead of truncating at a
fixed bound as the claim states. -/
theorem C2_insert_recursion_unbounded :
    ∀ fuel : ℕ, createObjectF selfBlocks fuel insertSelf = none := by
  intro fuel
  induction fuel with
  | zero => rfl
  | succ n ih =>
    simp only [insertSelf, selfBlocks] at ih ⊢
    simp [createObjectF, createObjStep, buildChildrenWith, assocGet, strTruthy, ih]

/-! ### The rotation field is never populated (C1) -/

/-- `applySwitch` never writes `rotation`: code 50 goes to `startAngle`. -/
theorem applySwitch_rotation (e : DXFEntity) (c : ℤ) (v : JNum) :
    (applySwitch e c v).rotation = e.rotation := by
  unfold applySwitch
  cases e.knots <;> simp only [apply_ite (fun s : DXFEntity => s.rotation)] <;> simp

/-- `applySwitch` never touches `type`. -/
theorem applySwitch_type (e : DXFEntity) (c : ℤ) (v : JNum) :
    (applySwitch e c v).type = e.type := by
  unfold applySwitch
  cases e.knots <;> simp only [apply_ite (fun s : DXFEntity => s.type)] <;> simp

/-- `applySwitch` never touches the polyline vertex list. -/
theorem applySwitch_vertices (e : DXFEntity) (c : ℤ) (v : JNum) :
    (applySwitch e c v).vertices = e.vertices := by
  unfold applySwitch
  cases e.knots <;> simp only [apply_ite (fun s : DXFEntity => s.vertices)] <;> simp

/-- `applySwitch` never touches the spline control points. -/
theorem applySwitch_controlPoints (e : DXFEntity) (c : ℤ) (v : JNum) :
    (applySwitch e c v).controlPoints = e.controlPoints := by
  unfold applySwitch
  cases e.knots <;> simp only [apply_ite (fun s : DXFEntity => s.controlPoints)] <;> simp

/-- Code 10 stores the parsed value into `x`. -/
theorem applySwitch_x10 (e : DXFEntity) (v : JNum) :
    (applySwitch e 10 v).x = some v := by
  unfold applySwitch
  norm_num

/-- `applyLWPolyline` never touches `rotation`, `type`, `x`, or the
spline control points. -/
theorem applyLWPolyline_untouched (e : DXFEntity) (c : ℤ) (v : JNum) :
    (applyLWPolyline e c v).rotation = e.rotation ∧ (applyLWPolyline e c v).type = e.type
    ∧ (applyLWPolyline e c v).x = e.x
    ∧ (applyLWPolyline e c v).controlPoints = e.controlPoints := by
  unfold applyLWPolyline
  repeat' split
  all_goals simp

/-- `applySpline` never touches `rotation`, `type`, `x`, or the polyline
vertices. -/
theorem applySpline_untouched (e : DXFEntity) (c : ℤ) (v : JNum) :
    (applySpline e c v).rotation = e.rotation ∧ (applySpline e c v).type = e.type
    ∧ (applySpline e c v).x = e.x
    ∧ (applySpline e c v).vertices = e.vertices := by
  unfold applySpline
  repeat' split
  all_goals simp

/-- Membership after a `Record` assignment: the new pair or an old one. -/
theorem assocSet_mem {α : Type} (m : List (String × α)) (k : String) (v : α)
    (p : String × α) (h : p ∈ assocSet m k v) : p = (k, v) ∨ p ∈ m := by
  induction m with
  | nil => simpa [assocSet] using h
  | cons q rest ih =>
    obtain ⟨k', v'⟩ := q
    unfold assocSet at h
    by_cases hk : k' = k
    · simp only [hk, if_pos rfl] at h
      rcases List.mem_cons.mp h with h | h
      · exact Or.inl h
      · exact Or.inr (List.mem_cons_of_mem _ h)
    · simp only [if_neg hk] at h
      rcases List.mem_cons.mp h with h | h
      · exact Or.inr (h ▸ List.mem_cons_self _ _)
      · rcases ih h with h | h
        · exact Or.inl h
        · exact Or.inr (List.mem_cons_of_mem _ h)

/-- No entity reachable from the decoder state carries a `rotation`
value: the tag decoder has no case writing that field. -/
def noRotation (s : PState) : Prop :=
  (∀ e ∈ s.entities, e.rotation = none)
  ∧ (∀ e ∈ s.currentBlockEntities, e.rotation = none)
  ∧ (∀ p ∈ s.blocks, ∀ e ∈ p.2, e.rotation = none)
  ∧ (∀ e, s.currentEntity = some e → e.rotation = none)

theorem commitEntity_noRotation (s : PState) (h : noRotation s) :
    noRotation (commitEntity s) := by
  obtain ⟨h1, h2, h3, h4⟩ := h
  unfold commitEntity
  cases hE : s.currentEntity with
  | none => exact ⟨h1, h2, h3, h4⟩
  | some e =>
    have he : e.rotation = none := h4 e hE
    split_ifs with hb hs
    · refine ⟨h1, ?_, h3, ?_⟩
      · intro e' he'
        rcases List.mem_append.mp he' with h' | h'
        · exact h2 e' h'
        · rw [List.mem_singleton.mp h']
          exact he
      · intro e' hE'
        simp at hE'
    · refine ⟨?_, h2, h3, ?_⟩
      · intro e' he'
        rcases List.mem_append.mp he' with h' | h'
        · exact h1 e' h'
        · rw [List.mem_singleton.mp h']
          exact he
      · intro e' hE'
        simp at hE'
    · exact ⟨h1, h2, h3, fun e' hE' => by simp at hE'⟩

theorem processTag_noRotation (s : PState) (t : Tag) (h : noRotation s) :
    noRotation (processTag s t) := by
  obtain ⟨hc1, hc2, hc3, hc4⟩ := commitEntity_noRotation s h
  obtain ⟨h1, h2, h3, h4⟩ := h
  unfold processTag
  dsimp only
  by_cases g0 : t.1 = 0
  · rw [if_pos g0]
    split_ifs with gS gE gB gK gN gC
    · exact ⟨hc1, hc2, hc3, hc4⟩
    · exact ⟨hc1, hc2, hc3, hc4⟩
    · exact ⟨hc1, fun e he => absurd he (List.not_mem_nil e), hc3, hc4⟩
    · refine ⟨hc1, fun e he => absurd he (List.not_mem_nil e), ?_, hc4⟩
      intro p hp e he
      rcases assocSet_mem _ _ _ _ hp with rfl | hp'
      · exact hc2 e he
      · exact hc3 p hp' e he
    · exact ⟨hc1, fun e he => absurd he (List.not_mem_nil e), hc3, hc4⟩
    · refine ⟨hc1, hc2, hc3, fun e' hE' => ?_⟩
      injection hE' with hh
      rw [← hh]
    · exact ⟨hc1, hc2, hc3, hc4⟩
  · rw [if_neg g0]
    by_cases g2 : t.1 = 2
    · rw [if_pos g2]
      split_ifs with g2a g2b
      · exact ⟨h1, h2, h3, h4⟩
      · exact ⟨h1, h2, h3, h4⟩
      · cases hE : s.currentEntity with
        | none => exact ⟨h1, h2, h3, h4⟩
        | some e =>
          dsimp only
          split_ifs with hins
          · refine ⟨h1, h2, h3, fun e' hE' => ?_⟩
            injection hE' with hh
            rw [← hh]
            exact h4 e hE
          · exact ⟨h1, h2, h3, h4⟩
    · rw [if_neg g2]
      cases hE : s.currentEntity with
      | none => exact ⟨h1, h2, h3, h4⟩
      | some e =>
        dsimp only
        refine ⟨h1, h2, h3, fun e' hE' => ?_⟩
        injection hE' with hh
        rw [← hh, (applySpline_untouched _ _ _).1, (applyLWPolyline_untouched _ _ _).1,
          applySwitch_rotation _ _ _]
        exact h4 e hE

theorem processTagMV_noRotation (s : PState) (t : Tag) (h : noRotation s) :
    noRotation (processTagMV s t) := by
  obtain ⟨hc1, hc2, hc3, hc4⟩ := commitEntity_noRotation s h
  obtain ⟨h1, h2, h3, h4⟩ := h
  unfold processTagMV
  dsimp only
  by_cases g0 : t.1 = 0
  · rw [if_pos g0]
    split_ifs with gS gE gB gK gN gC
    · exact ⟨hc1, hc2, hc3, hc4⟩
    · exact ⟨hc1, hc2, hc3, hc4⟩
    · exact ⟨hc1, fun e he => absurd he (List.not_mem_nil e), hc3, hc4⟩
    · refine ⟨hc1, fun e he => absurd he (List.not_mem_nil e), ?_, hc4⟩
      intro p hp e he
      rcases assocSet_mem _ _ _ _ hp with rfl | hp'
      · exact hc2 e he
      · exact hc3 p hp' e he
    · exact ⟨hc1, fun e he => absurd he (List.not_mem_nil e), hc3, hc4⟩
    · refine ⟨hc1, hc2, hc3, fun e' hE' => ?_⟩
      injection hE' with hh
      rw [← hh]
    · exact ⟨hc1, hc2, hc3, hc4⟩
  · rw [if_neg g0]
    by_cases g2 : t.1 = 2
    · rw [if_pos g2]
      split_ifs with g2a g2b
      · exact ⟨h1, h2, h3, h4⟩
      · exact ⟨h1, h2, h3, h4⟩
      · cases hE : s.currentEntity with
        | none => exact ⟨h1, h2, h3, h4⟩
        | some e =>
          dsimp only
          split_ifs with hins
          · refine ⟨h1, h2, h3, fun e' hE' => ?_⟩
            injection hE' with hh
            rw [← hh]
            exact h4 e hE
          · exact ⟨h1, h2, h3, h4⟩
    · rw [if_neg g2]
      cases hE : s.currentEntity with
      | none => exact ⟨h1, h2, h3, h4⟩
      | some e =>
        dsimp only
        split_ifs with h8
        · refine ⟨h1, h2, h3, fun e' hE' => ?_⟩
          injection hE' with hh
          rw [← hh]
          exact h4 e hE
        · refine ⟨h1, h2, h3, fun e' hE' => ?_⟩
          injection hE' with hh
          rw [← hh, (applySpline_untouched _ _ _).1, (applyLWPolyline_untouched _ _ _).1,
            applySwitch_rotation _ _ _]
          exact h4 e hE

/-- The decoder start state carries no entities at all. -/
theorem noRotation_init : noRotation {} :=
  ⟨fun e he => absurd he (List.not_mem_nil e),
   fun e he => absurd he (List.not_mem_nil e),
   fun p hp => absurd hp (List.not_mem_nil p),
   fun e hE => by simp at hE⟩

/-- C1.  The decoders never populate the `rotation` field of any entity:
group code 50 is routed to `startAngle` (`dxfParser.ts` line 96) and no
other case writes `rotation`, so the INSERT branch of the geometry
builder (`if (e.rotation)`, `dxfParser.ts` lines 227–229) is dead code
and a decoded INSERT group is never rotated — contrary to the claim that
the group is rotated about Z by the group-code-50 angle.  This holds for
the standalone parser and the layered viewer decoder alike. -/
theorem C1_rotation_never_populated (ts : List Tag) :
    noRotation (parseTags ts) ∧ noRotation (parseTagsMV ts) := by
  constructor
  · unfold parseTags
    apply commitEntity_noRotation
    have go : ∀ (l : List Tag) (s : PState), noRotation s → noRotation (l.foldl processTag s) := by
      intro l
      induction l with
      | nil => exact fun s hs => hs
      | cons a as ih => exact fun s hs => ih _ (processTag_noRotation s a hs)
    exact go ts {} noRotation_init
  · unfold parseTagsMV
    apply commitEntity_noRotation
    have go : ∀ (l : List Tag) (s : PState), noRotation s → noRotation (l.foldl processTagMV s) := by
      intro l
      induction l with
      | nil => exact fun s hs => hs
      | cons a as ih => exact fun s hs => ih _ (processTagMV_noRotation s a hs)
    exact go ts {} noRotation_init

/-! ### Section scoping (C7) -/

/-- `commitEntity` always clears the in-progress entity. -/
theorem commitEntity_currentEntity (s : PState) : (commitEntity s).currentEntity = none := by
  unfold commitEntity
  cases hE : s.currentEntity with
  | none => exact hE
  | some e => split_ifs <;> rfl

/-- `commitEntity` is the identity when nothing is in progress. -/
theorem commitEntity_id (s : PState) (h : s.currentEntity = none) : commitEntity s = s := by
  unfold commitEntity
  rw [h]

/-- Processing an ENDSEC tag clears the section and the in-progress
entity, committing at most the pending entity. -/
theorem processTag_endsec (s : PState) :
    (processTag s (0, "ENDSEC")).«section» = none
    ∧ (processTag s (0, "ENDSEC")).currentEntity = none
    ∧ (processTag s (0, "ENDSEC")).entities = (commitEntity s).entities := by
  refine ⟨?_, ?_, ?_⟩ <;> simp [processTag, commitEntity_currentEntity]

/-- A tag that is not a code-2 section name, processed from a state with
no open section and no in-progress entity, cannot open a section, start
an entity, or commit to model space. -/
theorem processTag_quiet (s : PState) (t : Tag)
    (hs : s.«section» = none) (hce : s.currentEntity = none)
    (ht : ¬ (t.1 = 2 ∧ (t.2 = "ENTITIES" ∨ t.2 = "BLOCKS"))) :
    (processTag s t).«section» = none
    ∧ (processTag s t).currentEntity = none
    ∧ (processTag s t).entities = s.entities := by
  unfold processTag
  dsimp only
  by_cases g0 : t.1 = 0
  · rw [if_pos g0, commitEntity_id s hce]
    split_ifs with gS gE gB gK gN gC
    · exact ⟨rfl, hce, rfl⟩
    · exact ⟨rfl, hce, rfl⟩
    · exact ⟨hs, hce, rfl⟩
    · exact ⟨hs, hce, rfl⟩
    · exact ⟨hs, hce, rfl⟩
    · rcases gC with hsE | ⟨hsB, _⟩
      · rw [hs] at hsE
        cases hsE
      · rw [hs] at hsB
        cases hsB
    · exact ⟨hs, hce, rfl⟩
  · rw [if_neg g0]
    by_cases g2 : t.1 = 2
    · have hv : ¬ (t.2 = "ENTITIES" ∨ t.2 = "BLOCKS") := fun hv => ht ⟨g2, hv⟩
      rw [if_pos g2, if_neg (fun hh => hv hh.2), if_neg (fun hh => by rw [hs] at hh; cases hh.1)]
      rw [hce]
      exact ⟨hs, hce, rfl⟩
    · rw [if_neg g2, hce]
      exact ⟨hs, hce, rfl⟩

/-- A run of such tags keeps the decoder quiet: section closed, no
entity in progress, model space unchanged. -/
theorem processTag_quietRun (B : List Tag) (s : PState)
    (hs : s.«section» = none) (hce : s.currentEntity = none)
    (hB : ∀ t ∈ B, ¬ (t.1 = 2 ∧ (t.2 = "ENTITIES" ∨ t.2 = "BLOCKS"))) :
    (B.foldl processTag s).«section» = none
    ∧ (B.foldl processTag s).currentEntity = none
    ∧ (B.foldl processTag s).entities = s.entities := by
  induction B generalizing s with
  | nil => exact ⟨hs, hce, rfl⟩
  | cons t ts ih =>
    obtain ⟨q1, q2, q3⟩ := processTag_quiet s t hs hce (hB t (List.mem_cons_self t ts))
    obtain ⟨r1, r2, r3⟩ := ih (processTag s t) q1 q2 (fun u hu => hB u (List.mem_cons_of_mem t hu))
    exact ⟨r1, r2, r3.trans q3⟩

/-- C7 (amended).  After an ENDSEC, as long as no code-2 tag naming a
section (value ENTITIES or BLOCKS) has been read — whether or not a
code-0 SECTION tag occurs — an entity type tag commits nothing to the
model-space entity list and leaves no entity in progress, so that entity
can never reach model space.  (The claim's delimiter, a SECTION/ENTITIES
tag *pair*, is not what the decoder checks: a bare code-2 ENTITIES tag
reopens the section, see the counterexample.) -/
theorem C7_section_scoping_amended (A B : List Tag) (T : String)
    (hB : ∀ t ∈ B, ¬ (t.1 = 2 ∧ (t.2 = "ENTITIES" ∨ t.2 = "BLOCKS")))
    (hT1 : T ≠ "SECTION") (hT2 : T ≠ "ENDSEC") (hT3 : T ≠ "BLOCK") (hT4 : T ≠ "ENDBLK") :
    ((A ++ [(0, "ENDSEC")] ++ B ++ [((0 : ℤ), T)]).foldl processTag {}).entities
        = ((A ++ [(0, "ENDSEC")]).foldl processTag {}).entities
    ∧ ((A ++ [(0, "ENDSEC")] ++ B ++ [((0 : ℤ), T)]).foldl processTag {}).currentEntity = none := by
  set s1 := (A ++ [(0, "ENDSEC")]).foldl processTag ({} : PState) with hs1
  have hends : s1.«section» = none ∧ s1.currentEntity = none := by
    rw [hs1, List.foldl_append]
    simp only [List.foldl_cons, List.foldl_nil]
    exact ⟨(processTag_endsec _).1, (processTag_endsec _).2.1⟩
  have hsplit : (A ++ [(0, "ENDSEC")] ++ B ++ [((0 : ℤ), T)]).foldl processTag ({} : PState)
      = processTag (B.foldl processTag s1) (0, T) := by
    simp only [hs1, List.foldl_append, List.foldl_cons, List.foldl_nil]
  obtain ⟨q1, q2, q3⟩ := processTag_quietRun B s1 hends.1 hends.2 hB
  have hT : ¬ ((((0 : ℤ), T) : Tag).1 = 2 ∧ ((((0 : ℤ), T) : Tag).2 = "ENTITIES"
      ∨ (((0 : ℤ), T) : Tag).2 = "BLOCKS")) := by
    intro hh
    cases hh.1
  obtain ⟨r1, r2, r3⟩ := processTag_quiet (B.foldl processTag s1) (0, T) q1 q2 hT
  rw [hsplit]
  exact ⟨r3.trans q3, r2⟩

/-- C7 (counterexample).  A stray code-2 ENTITIES tag after ENDSEC — with
no SECTION tag, hence no SECTION/ENTITIES pair — reopens the section, and
the LINE whose type tag follows it IS committed to model space, though
the claim says an entity read after ENDSEC and before the next
SECTION/ENTITIES pair never is. -/
theorem C7_section_scoping_counterexample :
    ((parseTags [(0, "SECTION"), (2, "ENTITIES"), (0, "ENDSEC"), (2, "ENTITIES"),
        (0, "LINE")]).entities.map DXFEntity.type) = ["LINE"] := by
  decide

/-- C7 (witness). -/
theorem C7_section_scoping_witness :
    (([((0 : ℤ), "SECTION"), ((2 : ℤ), "ENTITIES"), ((0 : ℤ), "LINE")] ++ [(0, "ENDSEC")]
        ++ [((99 : ℤ), "x")] ++ [((0 : ℤ), "CIRCLE")]).foldl processTag {}).entities
      = (([((0 : ℤ), "SECTION"), ((2 : ℤ), "ENTITIES"), ((0 : ℤ), "LINE")]
        ++ [(0, "ENDSEC")]).foldl processTag {}).entities
    ∧ (([((0 : ℤ), "SECTION"), ((2 : ℤ), "ENTITIES"), ((0 : ℤ), "LINE")] ++ [(0, "ENDSEC")]
        ++ [((99 : ℤ), "x")] ++ [((0 : ℤ), "CIRCLE")]).foldl processTag {}).currentEntity = none :=
  C7_section_scoping_amended [((0 : ℤ), "SECTION"), ((2 : ℤ), "ENTITIES"), ((0 : ℤ), "LINE")]
    [((99 : ℤ), "x")] "CIRCLE" (by decide) (by decide) (by decide) (by decide) (by decide)

/-! ### Layer grouping (C9) -/

/-- Appending entries on the right does not change hitting lookups. -/
theorem assocGet_append_left {α : Type} (gs : List (String × α)) (k : String) (v : α)
    (rest : List (String × α)) (h : assocGet gs k = some v) :
    assocGet (gs ++ rest) k = some v := by
  induction gs with
  | nil => simp [assocGet] at h
  | cons q qs ih =>
    obtain ⟨k', v'⟩ := q
    simp only [assocGet, List.cons_append] at h ⊢
    by_cases hk : k' = k
    · rwa [if_pos hk] at h ⊢
    · rw [if_neg hk] at h ⊢
      exact ih h

/-- `ensureLayer` leaves hitting lookups unchanged. -/
theorem ensureLayer_get (gs : List (String × List Obj)) (k k' : String) (l : List Obj)
    (h : assocGet gs k = some l) : assocGet (ensureLayer gs k') k = some l := by
  unfold ensureLayer
  cases assocGet gs k' with
  | some _ => exact h
  | none => exact assocGet_append_left gs k l _ h

/-- After `ensureLayer`, the key is present. -/
theorem ensureLayer_present (gs : List (String × List Obj)) (k : String) :
    ∃ l, assocGet (ensureLayer gs k) k = some l := by
  unfold ensureLayer
  cases hg : assocGet gs k with
  | some l => exact ⟨l, hg⟩
  | none =>
    clear hg
    induction gs with
    | nil => exact ⟨[], by simp [assocGet]⟩
    | cons q qs ih =>
      obtain ⟨k', v'⟩ := q
      by_cases hk : k' = k
      · exact ⟨v', by simp [assocGet, hk]⟩
      · obtain ⟨l, hl⟩ := ih
        exact ⟨l, by simpa [assocGet, hk] using hl⟩

/-- Adding to the group of key `k` appends to its object list. -/
theorem layerAdd_get_same (gs : List (String × List Obj)) (k : String) (o : Obj)
    (l : List Obj) (h : assocGet gs k = some l) :
    assocGet (layerAdd gs k o) k = some (l ++ [o]) := by
  induction gs with
  | nil => simp [assocGet] at h
  | cons q qs ih =>
    obtain ⟨k', l'⟩ := q
    simp only [assocGet] at h
    simp only [layerAdd]
    by_cases hk : k' = k
    · rw [if_pos hk] at h
      cases h
      simp [hk, assocGet]
    · rw [if_neg hk] at h
      rw [if_neg hk]
      simpa [assocGet, hk] using ih h

/-- Adding under any key never removes objects already filed. -/
theorem layerAdd_get_mono (gs : List (String × List Obj)) (k' : String) (o' : Obj)
    (k : String) (l : List Obj) (o : Obj) (h : assocGet gs k = some l) (ho : o ∈ l) :
    ∃ l2, assocGet (layerAdd gs k' o') k = some l2 ∧ o ∈ l2 := by
  by_cases hk : k' = k
  · subst hk
    exact ⟨l ++ [o'], layerAdd_get_same gs k' o' l h, List.mem_append_left _ ho⟩
  · refine ⟨l, ?_, ho⟩
    induction gs with
    | nil => simp [assocGet] at h
    | cons q qs ih =>
      obtain ⟨k2, l2⟩ := q
      simp only [assocGet] at h
      simp only [layerAdd]
      by_cases hk2 : k2 = k'
      · subst hk2
        rw [if_pos rfl]
        have hne : ¬ k2 = k := fun hh => hk (hh ▸ rfl)
        rw [if_neg hne] at h
        simpa [assocGet, hne] using h
      · rw [if_neg hk2]
        simp only [assocGet]
        by_cases hk3 : k2 = k
        · rw [if_pos hk3] at h ⊢
          exact h
        · rw [if_neg hk3] at h ⊢
          exact ih h

/-- The grouping loop never loses an object already filed under a key. -/
theorem buildLayersGo_mono (blocks : List (String × List DXFEntity)) (fuel : ℕ)
    (es : List DXFEntity) (gs : List (String × List Obj)) (res : List (String × List Obj))
    (k : String) (l : List Obj) (o : Obj)
    (hres : buildLayersGo blocks fuel gs es = some res)
    (h : assocGet gs k = some l) (ho : o ∈ l) :
    ∃ l2, assocGet res k = some l2 ∧ o ∈ l2 := by
  induction es generalizing gs l with
  | nil =>
    unfold buildLayersGo at hres
    cases hres
    exact ⟨l, h, ho⟩
  | cons e es ih =>
    unfold buildLayersGo at hres
    have h1 : assocGet (ensureLayer gs (layerKey e)) k = some l := ensureLayer_get _ _ _ _ h
    cases hc : createObjectF blocks fuel e with
    | none =>
      rw [hc] at hres
      cases hres
    | some oo =>
      cases oo with
      | none =>
        rw [hc] at hres
        exact ih _ _ hres h1 ho
      | some o2 =>
        rw [hc] at hres
        obtain ⟨l2, hl2, ho2⟩ := layerAdd_get_mono (ensureLayer gs (layerKey e))
          (layerKey e) o2 k l o h1 ho
        exact ih _ _ hres hl2 ho2

/-- C9 (amended).  Every model-space entity the builder turns into an
object is filed under the layer group keyed `e.layer || '0'`: the
group-code-8 layer name when that name is non-empty, and the default
`"0"` when no group-code-8 tag was read — or when the recorded layer
name is the empty string, which the claim's wording does not cover (see
the counterexample). -/
theorem C9_layer_grouping_amended (blocks : List (String × List DXFEntity)) (fuel : ℕ)
    (gs0 res : List (String × List Obj)) (es1 es2 : List DXFEntity) (e : DXFEntity) (o : Obj)
    (ho : createObjectF blocks fuel e = some (some o))
    (hres : buildLayersGo blocks fuel gs0 (es1 ++ e :: es2) = some res) :
    (∃ l, assocGet res (layerKey e) = some l ∧ o ∈ l)
    ∧ (∀ nm, e.layer = some nm → nm ≠ "" → layerKey e = nm)
    ∧ (e.layer = none → layerKey e = "0")
    ∧ (e.layer = some "" → layerKey e = "0") := by
  refine ⟨?_, ?_, ?_, ?_⟩
  · induction es1 generalizing gs0 with
    | nil =>
      rw [List.nil_append] at hres
      unfold buildLayersGo at hres
      rw [ho] at hres
      obtain ⟨l0, hl0⟩ := ensureLayer_present gs0 (layerKey e)
      exact buildLayersGo_mono blocks fuel es2 _ res (layerKey e) (l0 ++ [o]) o hres
        (layerAdd_get_same _ _ _ _ hl0) (List.mem_append_right _ (List.mem_singleton.mpr rfl))
    | cons a as ih =>
      rw [List.cons_append] at hres
      unfold buildLayersGo at hres
      cases hc : createObjectF blocks fuel a with
      | none =>
        rw [hc] at hres
        cases hres
      | some oo =>
        cases oo with
        | none =>
          rw [hc] at hres
          exact ih _ hres
        | some o2 =>
          rw [hc] at hres
          exact ih _ hres
  · intro nm hnm hne
    simp [layerKey, hnm, hne]
  · intro hnone
    simp [layerKey, hnone]
  · intro hempty
    simp [layerKey, hempty]

/-- A document whose one LINE carries a group-code-8 tag with an empty
value line: the entity's recorded layer name is the empty string. -/
def c9content : String :=
  "0\nSECTION\n2\nENTITIES\n0\nLINE\n8\n\n10\n1\n0\nENDSEC"

/-- C9 (counterexample).  The entity's group-code-8 layer name is `""`,
yet the only layer node in the built grouping is named `"0"` — the
entity is not grouped under a node named by its layer name, refuting the
claim's first half for the empty-name case (`e.layer || '0'` treats the
empty string like an absent layer). -/
theorem C9_layer_grouping_counterexample :
    ((parseTextMV c9content).entities.map DXFEntity.layer = [some ""])
    ∧ ((buildLayers (parseTextMV c9content) 1).map (fun gs => gs.map Prod.fst) = some ["0"]) := by
  decide

/-- Witness entity for C9: a LINE on layer L1. -/
def e0C9 : DXFEntity := { type := "LINE", layer := some "L1" }

/-- The object the builder makes of `e0C9`. -/
def o0C9 : Obj := Obj.line [mkVecQ 0 0 0, mkVecQ 0 0 0] (mkVecQ 0 0 0)

/-- C9 (witness). -/
theorem C9_layer_grouping_witness :
    (∃ l, assocGet [("L1", [o0C9])] (layerKey e0C9) = some l ∧ o0C9 ∈ l)
    ∧ layerKey e0C9 = "L1" :=
  ⟨(C9_layer_grouping_amended [] 1 [] [("L1", [o0C9])] [] [] e0C9 o0C9 rfl rfl).1,
   (C9_layer_grouping_amended [] 1 [] [("L1", [o0C9])] [] [] e0C9 o0C9 rfl rfl).2.1 "L1" rfl
     (by decide)⟩

/-! ### NaN storage on numeric field codes (C10) -/

/-- On code 10, a LWPOLYLINE in progress appends a vertex carrying the
parsed value. -/
theorem applyLWPolyline_code10 (e : DXFEntity) (v : JNum) (ht : e.type = "LWPOLYLINE") :
    (applyLWPolyline e 10 v).vertices = some ((e.vertices.getD []) ++ [⟨v, some 0, some 0⟩]) := by
  simp [applyLWPolyline, ht]

/-- On code 10, a SPLINE in progress appends a control point carrying the
parsed value. -/
theorem applySpline_code10 (e : DXFEntity) (v : JNum) (ht : e.type = "SPLINE") :
    (applySpline e 10 v).controlPoints
      = some ((e.controlPoints.getD []) ++ [⟨v, some 0, some 0⟩]) := by
  simp [applySpline, ht]

/-- C10.  A recognized numeric group code whose value line is not a
number is not skipped: `parseFloat` yields `NaN` (modelled `none`) and
that `NaN` is stored — into `x` for code 10, and appended as a
vertex/control-point coordinate for LWPOLYLINE/SPLINE; at the reader
level, only a code line that fails integer parsing drops a pair, never a
bad value line. -/
theorem C10_nan_stored (s : PState) (e : DXFEntity) (v : String)
    (he : s.currentEntity = some e) (hv : jsParseFloat v = none) :
    ((processTag s (10, v)).currentEntity.map DXFEntity.x) = some (some none)
    ∧ (e.type = "LWPOLYLINE" →
        (processTag s (10, v)).currentEntity.map DXFEntity.vertices
          = some (some ((e.vertices.getD []) ++ [⟨none, some 0, some 0⟩])))
    ∧ (e.type = "SPLINE" →
        (processTag s (10, v)).currentEntity.map DXFEntity.controlPoints
          = some (some ((e.controlPoints.getD []) ++ [⟨none, some 0, some 0⟩])))
    ∧ (∀ c val rest, jsParseInt (jsTrim c) = none → readTags (c :: val :: rest) = readTags rest)
    ∧ (∀ c val rest k, jsParseInt (jsTrim c) = some k →
        readTags (c :: val :: rest) = (k, jsTrim val) :: readTags rest) := by
  have hstep : (processTag s (10, v)).currentEntity
      = some (applySpline (applyLWPolyline (applySwitch e 10 (jsParseFloat v)) 10
          (jsParseFloat v)) 10 (jsParseFloat v)) := by
    simp [processTag, he]
  refine ⟨?_, fun ht => ?_, fun ht => ?_,
    fun c val rest hc => readTags_cons_skip c val rest hc,
    fun c val rest k hc => readTags_cons_ok c val rest k hc⟩
  · rw [hstep, Option.map_some']
    rw [(applySpline_untouched _ _ _).2.2.1, (applyLWPolyline_untouched _ _ _).2.2.1,
      applySwitch_x10, hv]
  · rw [hstep, Option.map_some']
    rw [(applySpline_untouched _ _ _).2.2.2,
      applyLWPolyline_code10 _ _ ((applySwitch_type _ _ _).trans ht),
      applySwitch_vertices, hv]
  · rw [hstep, Option.map_some']
    rw [applySpline_code10 _ _
        (((applyLWPolyline_untouched _ _ _).2.1).trans ((applySwitch_type _ _ _).trans ht)),
      (applyLWPolyline_untouched _ _ _).2.2.2, applySwitch_controlPoints, hv]

/-- C10 (witness): an in-progress LWPOLYLINE receiving the pair
(10, "abc"). -/
theorem C10_nan_stored_witness :
    ((processTag { currentEntity := some { type := "LWPOLYLINE" } } (10, "abc")).currentEntity.map
        DXFEntity.x) = some (some none)
    ∧ ((processTag { currentEntity := some { type := "LWPOLYLINE" } } (10, "abc")).currentEntity.map
        DXFEntity.vertices)
      = some (some [⟨none, some 0, some 0⟩])
    ∧ readTags ["zz", "5", "10", "7"] = readTags ["10", "7"] := by
  have h := C10_nan_stored { currentEntity := some { type := "LWPOLYLINE" } }
    { type := "LWPOLYLINE" } "abc" rfl (by decide)
  exact ⟨h.1, by simpa using h.2.1 rfl, h.2.2.2.1 "zz" "5" ["10", "7"] (by decide)⟩

/-! ### Batch loading and the two fatal conditions (C5) -/

/-- C5 (amended).  Exactly the two conditions of `fileRejected` —
too-short content (`!content || content.length < 10`) and the binary
marker prefix — keep a file from being parsed, and the check happens
before any tag parsing; but a rejected file is skipped silently
(`continue`): it is reported to the caller neither as a typed failure
nor as an exception, and the batch-level error message appears only when
every file of the batch was rejected. -/
theorem C5_fatal_conditions_amended (files : List (String × String)) :
    ((loadAllDXFFiles files).2.isSome ↔ ∀ f ∈ files, fileRejected f.2 = true)
    ∧ (∀ f ∈ files, fileRejected f.2 = false →
        (f.1, parseTextMV f.2) ∈ (loadAllDXFFiles files).1)
    ∧ (∀ p ∈ (loadAllDXFFiles files).1,
        ∃ f ∈ files, fileRejected f.2 = false ∧ p = (f.1, parseTextMV f.2)) := by
  have key : (0 < (files.filter (fun g => ¬ fileRejected g.2)).length)
      ↔ ∃ f ∈ files, fileRejected f.2 = false := by
    rw [List.length_pos]
    constructor
    · intro hne
      obtain ⟨q, hq⟩ := List.exists_mem_of_ne_nil _ hne
      rcases List.mem_filter.mp hq with ⟨hm, ha⟩
      exact ⟨q, hm, by simpa using ha⟩
    · rintro ⟨f, hf, hacc⟩ hnil
      have hmem : f ∈ files.filter (fun g => ¬ fileRejected g.2) :=
        List.mem_filter.mpr ⟨hf, by simp [hacc]⟩
      rw [hnil] at hmem
      exact List.not_mem_nil f hmem
  refine ⟨?_, ?_, ?_⟩
  · unfold loadAllDXFFiles
    dsimp only
    split_ifs with hl
    · rw [List.length_map] at hl
      simp only [Option.isSome_none, Bool.false_eq_true, false_iff]
      intro hall
      rcases key.mp hl with ⟨f, hf, hacc⟩
      rw [hall f hf] at hacc
      cases hacc
    · simp only [Option.isSome_some, true_iff]
      intro f hf
      cases hfr : fileRejected f.2 with
      | true => rfl
      | false =>
        exfalso
        rw [List.length_map] at hl
        exact hl (key.mpr ⟨f, hf, hfr⟩)
  · intro f hf hacc
    unfold loadAllDXFFiles
    exact List.mem_map.mpr ⟨f, List.mem_filter.mpr ⟨hf, by simp [hacc]⟩, rfl⟩
  · intro p hp
    unfold loadAllDXFFiles at hp
    rcases List.mem_map.mp hp with ⟨f, hf, rfl⟩
    rcases List.mem_filter.mp hf with ⟨hfm, hacc⟩
    refine ⟨f, hfm, ?_, rfl⟩
    simpa using hacc

/-- A well-formed one-LINE document, comfortably over 10 characters. -/
def goodDXF : String := "0\nSECTION\n2\nENTITIES\n0\nLINE\n0\nENDSEC"

/-- A batch with one too-short file and one good file. -/
def filesC5 : List (String × String) := [("bad.dxf", "short"), ("good.dxf", goodDXF)]

/-- C5 (counterexample).  The too-short file is skipped, the good file
loads, and the loader reports no failure of any kind for the skipped
file: the batch error is `none` and the result list simply omits the bad
file — refuting the claim that the fatal conditions are reported to the
caller as a typed failure. -/
theorem C5_fatal_conditions_counterexample :
    (loadAllDXFFiles filesC5).2 = none
    ∧ ((loadAllDXFFiles filesC5).1.map Prod.fst) = ["good.dxf"] := by
  decide

/-- C5 (witness). -/
theorem C5_fatal_conditions_witness :
    ("good.dxf", parseTextMV goodDXF) ∈ (loadAllDXFFiles filesC5).1 :=
  (C5_fatal_conditions_amended filesC5).2.1 ("good.dxf", goodDXF) (by decide) (by decide)
